import Mathlib

/-!
Verification development for the taboo training pipeline
(`train-taboo.py`).  The adaptive training controller (the
`MeasureDetection` and `AdjustTrainingParameters` Keras callbacks), the
orchestration in `train_taboo`, and the command-line entry point are
embedded shallowly: float scalars become rationals, the mutable callback
state becomes an explicit `TrainState` record, and the unbounded `while`
loop of the hyperparameter search becomes a fuel-indexed function whose
`none` result marks divergence of the source loop.
-/

/-- Relative tolerance used by Python `math.isclose` when only `abs_tol`
is passed: the documented default `rel_tol = 1e-09`. -/
def relTol : ℚ := 1 / 1000000000

/-- Absolute tolerance passed explicitly in the source:
`math.isclose(..., abs_tol=1e-10)`. -/
def absTol : ℚ := 1 / 10000000000

/-- Python `math.isclose(a, b, abs_tol=1e-10)`, per its documented
semantics `abs(a-b) <= max(rel_tol * max(abs(a), abs(b)), abs_tol)` with
the default `rel_tol = 1e-09` still in force. -/
def isclose (a b : ℚ) : Bool :=
  decide (|a - b| ≤ max (relTol * max |a| |b|) absTol)

/-- The hyperparameter search loop of
`AdjustTrainingParameters.on_epoch_end`:

    temp_hyperp = 1.0
    while (regLoss * temp_hyperp) - clsLoss >= 1:
        temp_hyperp *= 0.1

`fuel` bounds the number of multiplications we are willing to unfold;
`none` means the source loop has not terminated within `fuel`
iterations (the source itself has no bound at all). -/
def hyperpSearch (regLoss clsLoss : ℚ) : ℕ → ℚ → Option ℚ
  | 0, w => if regLoss * w - clsLoss < 1 then some w else none
  | n + 1, w =>
      if regLoss * w - clsLoss < 1 then some w
      else hyperpSearch regLoss clsLoss n (w * (1 / 10))

/-- The mutable state shared between the two callbacks and the
optimizer: the regularization weight variable `reg_hyperp`, the
optimizer learning rate, the flag `target_fp_reached` of
`MeasureDetection`, and the `stop_training` flag of the model. -/
structure TrainState where
  reg_hyperp : ℚ
  lr : ℚ
  target_fp_reached : Bool
  stop_training : Bool
deriving DecidableEq, Repr

/-- `MeasureDetection.on_epoch_end`: recompute
`target_fp_reached = detected < target_fp` from the evaluation on the
fixed-size clean slice of the test set, and set `stop_training` when the
target is reached.  The detection measurement itself
(`eval_taboo.eval_taboo`) is external, so the measured rate `detected`
is an input. -/
def measureDetection (target_fp detected : ℚ) (s : TrainState) : TrainState :=
  if detected < target_fp then
    { s with target_fp_reached := true, stop_training := true }
  else
    { s with target_fp_reached := false }

/-- `AdjustTrainingParameters.on_epoch_end`: return unchanged unless
`epoch % update_freq == 0`; return unchanged when the false-positive
target is already reached; otherwise run the hyperparameter search from
1.0 and, when the candidate is not `math.isclose` to the current weight,
commit it, additionally decaying the learning rate by 0.1 when
`epoch > 0` and `epoch % (update_freq * 2) == 0`. -/
def adjustTrainingParameters (update_freq epoch : ℕ) (regLoss clsLoss : ℚ)
    (fuel : ℕ) (s : TrainState) : TrainState :=
  if epoch % update_freq ≠ 0 then s
  else if s.target_fp_reached then s
  else
    match hyperpSearch regLoss clsLoss fuel 1 with
    | none => s
    | some temp =>
      if isclose temp s.reg_hyperp then s
      else if 0 < epoch ∧ epoch % (update_freq * 2) = 0 then
        { s with reg_hyperp := temp, lr := s.lr * (1 / 10) }
      else
        { s with reg_hyperp := temp }

/-- One epoch-end pass over the callback list
`[tensorboard, measure_fp, reg_hyperp_adjustment]`: the detection
measurement runs before the parameter adjustment. -/
def epochEnd (target_fp : ℚ) (update_freq epoch : ℕ)
    (detected regLoss clsLoss : ℚ) (fuel : ℕ) (s : TrainState) : TrainState :=
  adjustTrainingParameters update_freq epoch regLoss clsLoss fuel
    (measureDetection target_fp detected s)

/-- Initial value of the regularization weight variable:
`reg_hyperp = K.variable(0.0)` in `train_taboo`. -/
def initialRegHyperp : ℚ := 0

/-- The source `while` loop runs forever on these losses: no amount of
fuel makes the fuel-indexed search return, from any nonnegative starting
weight. -/
def searchDiverges (regLoss clsLoss : ℚ) : Prop :=
  ∀ (fuel : ℕ) (w : ℚ), 0 ≤ w → hyperpSearch regLoss clsLoss fuel w = none

namespace Config

/-- `Config.MODEL_IDX = 1`. -/
def MODEL_IDX : ℕ := 1

/-- `Config.LEN_LAYER = 1`. -/
def LEN_LAYER : ℕ := 1

/-- `Config.THRESHOLDS`: four candidate per-layer threshold vectors,
each `LEN_LAYER` copies of a constant. -/
def THRESHOLDS : List (List ℚ) :=
  [List.replicate LEN_LAYER (2 / 10),
   List.replicate LEN_LAYER (4 / 10),
   List.replicate LEN_LAYER (8 / 10),
   List.replicate LEN_LAYER 1]

/-- `Config.THRESHOLD = THRESHOLDS[MODEL_IDX]`. -/
def THRESHOLD : List ℚ := THRESHOLDS.getD MODEL_IDX []

/-- `Config.THRESHOLD_METHOD = 'function'`. -/
def THRESHOLD_METHOD : String := "function"

/-- `Config.TARGET_FP = 0.01`. -/
def TARGET_FP : ℚ := 1 / 100

/-- `Config.UPDATE_EVERY_EPOCHS = 5`. -/
def UPDATE_EVERY_EPOCHS : ℕ := 5

/-- `Config.EPOCHS_WITHOUT_REG = 50`. -/
def EPOCHS_WITHOUT_REG : ℕ := 50

/-- `Config.THRESHOLD_PATH` (the `tmp/testrun63-1-thresh.npy` join). -/
def THRESHOLD_PATH : String := "tmp/testrun63-1-thresh.npy"

end Config

/-- A Keras model, abstracted to an identifier plus how many base
training epochs have been applied to it; `model.fit` is the external
framework call. -/
structure KerasModel where
  id : ℕ
  fitEpochs : ℕ
deriving DecidableEq, Repr

/-- `model.fit(...)` on the base model: external training, tracked only
by epoch count. -/
def fitModel (m : KerasModel) (epochs : ℕ) : KerasModel :=
  { m with fitEpochs := m.fitEpochs + epochs }

/-- Outcome of the load-or-train phase of `train_taboo`: the model that
proceeds to augmentation, whether base training ran, and whether the
base checkpoint was saved in this phase. -/
structure BasePhaseResult where
  model : KerasModel
  trainedFromScratch : Bool
  savedCheckpoint : Bool
deriving DecidableEq, Repr

/-- The `try: model = load_model(...) except (OSError, ValueError)`
phase of `train_taboo`.  `loaded = none` models the missing or corrupt
checkpoint (either exception); `loaded = some m` a successful load, in
which case base training is skipped.  On the fallback path the fresh
model is trained `EPOCHS_WITHOUT_REG - 1` epochs and saved. -/
def loadOrTrainBase (loaded : Option KerasModel) (fresh : KerasModel) : BasePhaseResult :=
  match loaded with
  | some m => ⟨m, false, false⟩
  | none => ⟨fitModel fresh (Config.EPOCHS_WITHOUT_REG - 1), true, true⟩

/-- A model as seen by the taboo machinery: its primary forward path
from an input batch to predictions. -/
structure NNModel where
  forward : List ℚ → List ℚ

/-- `relu`, as used in the per-layer regularization term. -/
def relu (x : ℚ) : ℚ := max x 0

/-- Mean of the above-threshold activation mass of one profiled layer:
`mean(relu(activation - threshold))`. -/
def meanExcess (acts : List ℚ) (th : ℚ) : ℚ :=
  ((acts.map fun a => relu (a - th)).sum) / acts.length

/-- The augmented model: the base model plus the attached regularization
weight and per-layer thresholds.  The primary path is the base model. -/
structure TabooModel where
  base : NNModel
  regWeight : ℚ
  thresholds : List ℚ

/-- The taboo regularization loss of the augmented model on one profiled
activation vector: `regWeight * mean(relu(activation - threshold))`,
summed over layers via the per-layer threshold list. -/
def tabooLoss (t : TabooModel) (acts : List (List ℚ)) : ℚ :=
  t.regWeight * ((acts.zip t.thresholds).map fun p => meanExcess p.1 p.2).sum

/-- Modelled from the spec: `taboo.taboo_tools.create_taboo_model` is
not under `src/`.  Per §4.3 it wraps the base model, attaching the
regularization weight and thresholds as added loss structure while
preserving the primary output and the weights of the original model. -/
def create_taboo_model (m : NNModel) (regWeight : ℚ) (thresholds : List ℚ) : TabooModel :=
  ⟨m, regWeight, thresholds⟩

/-- Modelled from the spec: `taboo.taboo_tools.remove_taboo` is not
under `src/`.  Per §4.3 it strips the added loss terms and profiling
taps, returning a model whose forward pass and weights are unchanged
from the primary path of the augmented model. -/
def remove_taboo (t : TabooModel) : NNModel := t.base

/-- The persisted-file store, as an association list from paths to
serialized numeric arrays. -/
abbrev FileStore := List (String × List ℚ)

/-- `np.save(path, arr)`. -/
def npSave (fs : FileStore) (path : String) (arr : List ℚ) : FileStore :=
  (path, arr) :: fs

/-- Loading a persisted array if the file exists. -/
def loadFile (fs : FileStore) (path : String) : Option (List ℚ) :=
  match fs.find? fun p => p.1 == path with
  | some p => some p.2
  | none => none

/-- Modelled from the spec: the threshold acquisition inside
`taboo.taboo_tools.create_taboo_model` is not under `src/`.  Per §4.3,
if `thresholdPath` exists the persisted thresholds are loaded; else they
are derived from calibration data and persisted. -/
def obtainThresholds (fs : FileStore) (path : String) (derived : List ℚ) :
    List ℚ × FileStore :=
  match loadFile fs path with
  | some arr => (arr, fs)
  | none => (derived, npSave fs path derived)

/-- The `__main__` entry point before `train_taboo(c)` runs:
`np.save(c.THRESHOLD_PATH, np.asarray(c.THRESHOLD))`, unconditionally. -/
def mainThresholdSetup (fs : FileStore) : FileStore :=
  npSave fs Config.THRESHOLD_PATH Config.THRESHOLD

/-- The weight-commit condition of `AdjustTrainingParameters`, as a
boolean: the cadence gate passes, the target is not reached, and the
search candidate is not `math.isclose` to the current weight. -/
def weightCommitted (update_freq epoch fuel : ℕ) (regLoss clsLoss : ℚ)
    (s : TrainState) : Bool :=
  decide (epoch % update_freq = 0) && !s.target_fp_reached &&
    (match hyperpSearch regLoss clsLoss fuel 1 with
     | some t => !(isclose t s.reg_hyperp)
     | none => false)

/-- The learning-rate decay condition: a weight update committed, and
`epoch > 0`, and `epoch % (update_freq * 2) == 0`. -/
def lrDecay (update_freq epoch fuel : ℕ) (regLoss clsLoss : ℚ)
    (s : TrainState) : Bool :=
  weightCommitted update_freq epoch fuel regLoss clsLoss s &&
    decide (0 < epoch) && decide (epoch % (update_freq * 2) = 0)

/-- A successful search result lies in `(0, 1]` and satisfies the
stopping condition, provided the starting weight does. -/
theorem hyperpSearch_sound (regLoss clsLoss : ℚ) :
    ∀ (fuel : ℕ) (w v : ℚ), 0 < w → w ≤ 1 →
      hyperpSearch regLoss clsLoss fuel w = some v →
      0 < v ∧ v ≤ 1 ∧ regLoss * v - clsLoss < 1 := by
  intro fuel
  induction fuel with
  | zero =>
    intro w v hw hw1 h
    simp only [hyperpSearch] at h
    split at h
    · cases h; exact ⟨hw, hw1, by assumption⟩
    · cases h
  | succ n ih =>
    intro w v hw hw1 h
    simp only [hyperpSearch] at h
    split at h
    · cases h; exact ⟨hw, hw1, by assumption⟩
    · exact ih (w * (1 / 10)) v (by positivity) (by nlinarith) h

/-- If the stopping condition holds after `fuel` decays of the starting
weight, the search returns within `fuel` iterations. -/
theorem hyperpSearch_term (regLoss clsLoss : ℚ) :
    ∀ (fuel : ℕ) (w : ℚ), regLoss * (w * (1 / 10) ^ fuel) - clsLoss < 1 →
      ∃ v, hyperpSearch regLoss clsLoss fuel w = some v := by
  intro fuel
  induction fuel with
  | zero =>
    intro w h
    rw [pow_zero, mul_one] at h
    exact ⟨w, by simp [hyperpSearch, h]⟩
  | succ n ih =>
    intro w h
    by_cases hc : regLoss * w - clsLoss < 1
    · exact ⟨w, by simp [hyperpSearch, hc]⟩
    · have h' : regLoss * (w * (1 / 10) * (1 / 10) ^ n) - clsLoss < 1 := by
        have e : regLoss * (w * (1 / 10) * (1 / 10) ^ n)
            = regLoss * (w * (1 / 10) ^ (n + 1)) := by ring
        rw [e]; exact h
      obtain ⟨v, hv⟩ := ih (w * (1 / 10)) h'
      exact ⟨v, by simp only [hyperpSearch]; rw [if_neg hc]; exact hv⟩

/-- Whenever `clsLoss > -1` there is a decay count after which the
stopping condition holds from starting weight 1. -/
theorem candidate_fuel_exists (regLoss clsLoss : ℚ) (h : -1 < clsLoss) :
    ∃ n : ℕ, regLoss * (1 * (1 / 10 : ℚ) ^ n) - clsLoss < 1 := by
  have h1 : (0 : ℚ) < 1 + clsLoss := by linarith
  rcases le_or_lt regLoss 0 with hr | hr
  · exact ⟨0, by rw [pow_zero]; nlinarith⟩
  · obtain ⟨n, hn⟩ :=
      exists_pow_lt_of_lt_one (div_pos h1 hr)
        (by norm_num : (1 / 10 : ℚ) < 1)
    refine ⟨n, ?_⟩
    rw [one_mul]
    have := (lt_div_iff₀ hr).mp hn
    nlinarith [pow_pos (by norm_num : (0 : ℚ) < 1 / 10) n]

/-- On a cadence epoch with the target not reached and a successful
search, the committed regularization weight is the fresh candidate when
it is not `math.isclose` to the current weight, and the current weight
otherwise. -/
theorem adjust_reg_hyperp_eq (update_freq epoch fuel : ℕ) (regLoss clsLoss : ℚ)
    (s : TrainState) (temp : ℚ)
    (h1 : epoch % update_freq = 0) (h2 : s.target_fp_reached = false)
    (h3 : hyperpSearch regLoss clsLoss fuel 1 = some temp) :
    (adjustTrainingParameters update_freq epoch regLoss clsLoss fuel s).reg_hyperp =
      if isclose temp s.reg_hyperp then s.reg_hyperp else temp := by
  by_cases h4 : isclose temp s.reg_hyperp = true
  · simp [adjustTrainingParameters, h1, h2, h3, h4]
  · simp only [adjustTrainingParameters, h1, h2, h3, ne_eq, not_true_eq_false,
      if_false, Bool.false_eq_true, ite_false]
    simp only [h4, Bool.false_eq_true, ite_false, if_false]
    split <;> simp [h4]

/-- C3: at epoch end the controller compares the measured false-positive
rate against the target; a measurement strictly below the target sets
`target_fp_reached` and signals the training loop to stop by setting
`stop_training`. -/
theorem C3_measure_halts (target_fp detected : ℚ) (s : TrainState)
    (h : detected < target_fp) :
    (measureDetection target_fp detected s).target_fp_reached = true ∧
    (measureDetection target_fp detected s).stop_training = true := by
  simp [measureDetection, h]

/-- Witness for C3: measurement 0.008 against target 0.01 halts. -/
theorem C3_witness :
    (8 : ℚ) / 1000 < Config.TARGET_FP ∧
    (measureDetection Config.TARGET_FP (8 / 1000)
        (TrainState.mk 0 1 false false)).target_fp_reached = true ∧
    (measureDetection Config.TARGET_FP (8 / 1000)
        (TrainState.mk 0 1 false false)).stop_training = true :=
  ⟨by norm_num [Config.TARGET_FP],
   C3_measure_halts Config.TARGET_FP (8 / 1000) (TrainState.mk 0 1 false false)
     (by norm_num [Config.TARGET_FP])⟩

/-- C4: the adjustment callback leaves the state untouched off the
update cadence; it leaves the state untouched whenever the target is
already reached; and in a full epoch end where the measurement comes in
under the target, neither the regularization weight nor the learning
rate is mutated. -/
theorem C4_mutation_gates (target_fp detected regLoss clsLoss : ℚ)
    (update_freq epoch fuel : ℕ) (s : TrainState) :
    (epoch % update_freq ≠ 0 →
      adjustTrainingParameters update_freq epoch regLoss clsLoss fuel s = s) ∧
    (s.target_fp_reached = true →
      adjustTrainingParameters update_freq epoch regLoss clsLoss fuel s = s) ∧
    (detected < target_fp →
      (epochEnd target_fp update_freq epoch detected regLoss clsLoss fuel s).reg_hyperp
        = s.reg_hyperp ∧
      (epochEnd target_fp update_freq epoch detected regLoss clsLoss fuel s).lr
        = s.lr) := by
  refine ⟨?_, ?_, ?_⟩
  · intro h; simp [adjustTrainingParameters, h]
  · intro h
    by_cases h1 : epoch % update_freq ≠ 0
    · simp [adjustTrainingParameters, h1]
    · simp [adjustTrainingParameters, h1, h]
  · intro h
    have hm : measureDetection target_fp detected s =
        { s with target_fp_reached := true, stop_training := true } := by
      simp [measureDetection, h]
    unfold epochEnd
    rw [hm]
    by_cases h1 : epoch % update_freq ≠ 0
    · simp [adjustTrainingParameters, h1]
    · simp [adjustTrainingParameters, h1]

/-- Witness for C4: off-cadence epoch 3 leaves the state unchanged; a
reached target leaves the state unchanged at a cadence epoch; an
under-target measurement leaves weight and learning rate unchanged. -/
theorem C4_witness :
    adjustTrainingParameters 5 3 5 (3 / 10) 60 (TrainState.mk 0 1 false false)
      = TrainState.mk 0 1 false false ∧
    adjustTrainingParameters 5 5 5 (3 / 10) 60 (TrainState.mk (1 / 10) 1 true false)
      = TrainState.mk (1 / 10) 1 true false ∧
    ((epochEnd (1 / 100) 5 5 (8 / 1000) 5 (3 / 10) 60
        (TrainState.mk (1 / 10) 1 false false)).reg_hyperp = 1 / 10 ∧
     (epochEnd (1 / 100) 5 5 (8 / 1000) 5 (3 / 10) 60
        (TrainState.mk (1 / 10) 1 false false)).lr = 1) :=
  ⟨(C4_mutation_gates (1 / 100) (8 / 1000) 5 (3 / 10) 5 3 60
      (TrainState.mk 0 1 false false)).1 (by decide),
   (C4_mutation_gates (1 / 100) (8 / 1000) 5 (3 / 10) 5 5 60
      (TrainState.mk (1 / 10) 1 true false)).2.1 rfl,
   (C4_mutation_gates (1 / 100) (8 / 1000) 5 (3 / 10) 5 5 60
      (TrainState.mk (1 / 10) 1 false false)).2.2 (by norm_num)⟩

/-- C8: a missing or corrupt checkpoint (`loaded = none`, the
`OSError`/`ValueError` path) falls back to training the base model from
scratch and saving it, not a fatal error; a successful load skips base
training entirely and hands the loaded model on to augmentation. -/
theorem C8_load_or_train (loaded : Option KerasModel) (fresh : KerasModel) :
    (loaded = none →
      (loadOrTrainBase loaded fresh).trainedFromScratch = true ∧
      (loadOrTrainBase loaded fresh).savedCheckpoint = true ∧
      (loadOrTrainBase loaded fresh).model
        = fitModel fresh (Config.EPOCHS_WITHOUT_REG - 1)) ∧
    (∀ m, loaded = some m →
      (loadOrTrainBase loaded fresh).model = m ∧
      (loadOrTrainBase loaded fresh).trainedFromScratch = false ∧
      (loadOrTrainBase loaded fresh).savedCheckpoint = false) := by
  constructor
  · rintro rfl; exact ⟨rfl, rfl, rfl⟩
  · rintro m rfl; exact ⟨rfl, rfl, rfl⟩

/-- Witness for C8: both branches at concrete models. -/
theorem C8_witness :
    ((loadOrTrainBase none (KerasModel.mk 7 0)).trainedFromScratch = true ∧
     (loadOrTrainBase none (KerasModel.mk 7 0)).savedCheckpoint = true ∧
     (loadOrTrainBase none (KerasModel.mk 7 0)).model
       = fitModel (KerasModel.mk 7 0) (Config.EPOCHS_WITHOUT_REG - 1)) ∧
    ((loadOrTrainBase (some (KerasModel.mk 3 49)) (KerasModel.mk 7 0)).model
       = KerasModel.mk 3 49 ∧
     (loadOrTrainBase (some (KerasModel.mk 3 49)) (KerasModel.mk 7 0)).trainedFromScratch
       = false ∧
     (loadOrTrainBase (some (KerasModel.mk 3 49)) (KerasModel.mk 7 0)).savedCheckpoint
       = false) :=
  ⟨(C8_load_or_train none (KerasModel.mk 7 0)).1 rfl,
   (C8_load_or_train (some (KerasModel.mk 3 49)) (KerasModel.mk 7 0)).2
     (KerasModel.mk 3 49) rfl⟩

/-- C9: stripping the taboo structure from the augmented model restores
a model whose primary-path predictions on every batch are exactly those
of the original model. -/
theorem C9_remove_taboo_exact (m : NNModel) (w : ℚ) (th : List ℚ) (batch : List ℚ) :
    (remove_taboo (create_taboo_model m w th)).forward batch = m.forward batch := rfl

/-- C10: the entry point unconditionally persists the fixed `THRESHOLD`
array to `THRESHOLD_PATH` before training, so the threshold file exists
when the augmenter runs and the load-if-exists branch returns exactly
the fixed constants, even though `THRESHOLD_METHOD` is `'function'`. -/
theorem C10_threshold_persisted (fs : FileStore) (derived : List ℚ) :
    Config.THRESHOLD_METHOD = "function" ∧
    loadFile (mainThresholdSetup fs) Config.THRESHOLD_PATH = some Config.THRESHOLD ∧
    obtainThresholds (mainThresholdSetup fs) Config.THRESHOLD_PATH derived
      = (Config.THRESHOLD, mainThresholdSetup fs) := by
  refine ⟨rfl, ?_, ?_⟩
  · simp [loadFile, mainThresholdSetup, npSave, List.find?]
  · simp [obtainThresholds, loadFile, mainThresholdSetup, npSave, List.find?]

/-- Evaluation of the search at the spec scenario losses 5 and 0.3: one
scaling, candidate 0.1, for any positive fuel. -/
theorem search_eval_scenario (n : ℕ) :
    hyperpSearch 5 (3 / 10) (n + 1) 1 = some (1 / 10) := by
  have h1 : ¬ ((5 : ℚ) * 1 - 3 / 10 < 1) := by norm_num
  have h2 : (5 : ℚ) * (1 * (1 / 10)) - 3 / 10 < 1 := by norm_num
  cases n with
  | zero =>
    simp only [hyperpSearch]
    rw [if_neg h1, if_pos h2]
    norm_num
  | succ m =>
    simp only [hyperpSearch]
    rw [if_neg h1, if_pos h2]
    norm_num

/-- Evaluation of the search at losses 0 and 0: the stopping condition
already holds at 1.0, so the candidate is 1.0 at any fuel. -/
theorem search_eval_zero (n : ℕ) : hyperpSearch 0 0 n 1 = some 1 := by
  have h : (0 : ℚ) * 1 - 0 < 1 := by norm_num
  cases n with
  | zero => simp only [hyperpSearch]; rw [if_pos h]
  | succ m => simp only [hyperpSearch]; rw [if_pos h]

/-- `math.isclose(1.0, 1 - 5e-10, abs_tol=1e-10)` holds: the difference
`5e-10` exceeds the absolute tolerance but sits inside the default
relative tolerance `1e-09`. -/
theorem isclose_cand_curr : isclose 1 (1 - 1 / 2000000000) = true := by
  unfold isclose relTol absTol
  rw [decide_eq_true_eq,
    show (1 : ℚ) - (1 - 1 / 2000000000) = 1 / 2000000000 by ring,
    abs_of_pos (by norm_num : (0 : ℚ) < 1 / 2000000000),
    abs_one, abs_of_pos (by norm_num : (0 : ℚ) < 1 - 1 / 2000000000)]
  rw [max_eq_left (by norm_num), max_eq_left (by norm_num)]
  norm_num

/-- `math.isclose(0.1, 0.0, abs_tol=1e-10)` fails: the candidate 0.1 is
far from a current weight of 0. -/
theorem isclose_tenth_zero : isclose (1 / 10) 0 = false := by
  unfold isclose relTol absTol
  rw [decide_eq_false_iff_not,
    show (1 / 10 : ℚ) - 0 = 1 / 10 by ring,
    abs_of_pos (by norm_num : (0 : ℚ) < 1 / 10), abs_zero]
  norm_num [max_def]

/-- The previous fact in the inverse-literal normal form that `simp`
produces for 0.1. -/
theorem isclose_invten_zero : isclose (10 : ℚ)⁻¹ 0 = false := by
  rw [show ((10 : ℚ)⁻¹) = 1 / 10 by norm_num]
  exact isclose_tenth_zero

/-- C1 counterexample: with losses 0 and 0 the candidate is 1.0; against
a current weight of `1 - 1/2000000000` the difference exceeds the
absolute tolerance `1e-10`, yet `math.isclose` holds through its default
relative tolerance `1e-09`, so the code does not commit where the claim
says it must. -/
theorem C1_counterexample :
    hyperpSearch 0 0 0 1 = some 1 ∧
    |(1 : ℚ) - (1 - 1 / 2000000000)| > absTol ∧
    (adjustTrainingParameters 5 5 0 0 0
        (TrainState.mk (1 - 1 / 2000000000) 1 false false)).reg_hyperp
      = 1 - 1 / 2000000000 := by
  refine ⟨search_eval_zero 0, ?_, ?_⟩
  · rw [show (1 : ℚ) - (1 - 1 / 2000000000) = 1 / 2000000000 by ring,
      abs_of_pos (by norm_num : (0 : ℚ) < 1 / 2000000000)]
    norm_num [absTol]
  · have h := adjust_reg_hyperp_eq 5 5 0 0 0
      (TrainState.mk (1 - 1 / 2000000000) 1 false false) 1 rfl rfl (search_eval_zero 0)
    rw [h, show (TrainState.mk (1 - 1 / 2000000000 : ℚ) 1 false false).reg_hyperp
        = 1 - 1 / 2000000000 from rfl, isclose_cand_curr]
    simp

/-- C1 (amended): on a cadence epoch with the target unmet, the
candidate from the 1.0-start, scale-by-0.1 search is committed exactly
when it is not `math.isclose` to the current weight, where the tolerance
is the combination of the relative tolerance `1e-09` and the absolute
tolerance `1e-10`. -/
theorem C1_commit_rule (update_freq epoch fuel : ℕ) (regLoss clsLoss : ℚ)
    (s : TrainState) (temp : ℚ)
    (h1 : epoch % update_freq = 0) (h2 : s.target_fp_reached = false)
    (h3 : hyperpSearch regLoss clsLoss fuel 1 = some temp) :
    (adjustTrainingParameters update_freq epoch regLoss clsLoss fuel s).reg_hyperp =
      if isclose temp s.reg_hyperp then s.reg_hyperp else temp :=
  adjust_reg_hyperp_eq update_freq epoch fuel regLoss clsLoss s temp h1 h2 h3

/-- Witness for C1: the spec scenario, `regularizationLoss = 5.0`,
`classificationLoss = 0.3`, current weight 0 — the candidate is 0.1 and
it is committed. -/
theorem C1_witness :
    hyperpSearch 5 (3 / 10) 1 1 = some (1 / 10) ∧
    (adjustTrainingParameters 5 5 5 (3 / 10) 1
        (TrainState.mk 0 1 false false)).reg_hyperp = 1 / 10 := by
  refine ⟨search_eval_scenario 0, ?_⟩
  have h := C1_commit_rule 5 5 1 5 (3 / 10) (TrainState.mk 0 1 false false)
    (1 / 10) rfl rfl (search_eval_scenario 0)
  rw [h, show (TrainState.mk (0 : ℚ) 1 false false).reg_hyperp = 0 from rfl,
    isclose_tenth_zero]
  simp

/-- C2 counterexample: for end-of-epoch losses `regLoss = 1`,
`clsLoss = -1` the search loop never exits — no iteration bound is ever
applied and no previous-weight fallback exists in the code. -/
theorem C2_counterexample : searchDiverges 1 (-1) := by
  intro fuel
  induction fuel with
  | zero =>
    intro w hw
    have hc : ¬ ((1 : ℚ) * w - (-1) < 1) := by push_neg; linarith
    simp only [hyperpSearch]
    rw [if_neg hc]
  | succ n ih =>
    intro w hw
    have hc : ¬ ((1 : ℚ) * w - (-1) < 1) := by push_neg; linarith
    simp only [hyperpSearch]
    rw [if_neg hc]
    exact ih (w * (1 / 10)) (by positivity)

/-- C2 (amended): whenever the classification loss exceeds -1 (in
particular for all nonnegative losses) the search terminates after
finitely many scalings and returns a weight in `(0, 1]` satisfying the
stopping condition. -/
theorem C2_search_terminates (regLoss clsLoss : ℚ) (h : -1 < clsLoss) :
    ∃ fuel v, hyperpSearch regLoss clsLoss fuel 1 = some v ∧
      0 < v ∧ v ≤ 1 ∧ regLoss * v - clsLoss < 1 := by
  obtain ⟨n, hn⟩ := candidate_fuel_exists regLoss clsLoss h
  obtain ⟨v, hv⟩ := hyperpSearch_term regLoss clsLoss n 1 hn
  obtain ⟨p1, p2, p3⟩ := hyperpSearch_sound regLoss clsLoss n 1 v one_pos le_rfl hv
  exact ⟨n, v, hv, p1, p2, p3⟩

/-- Witness for C2: termination at the concrete losses 5 and 0.3. -/
theorem C2_witness :
    (-1 : ℚ) < 3 / 10 ∧
    ∃ fuel v, hyperpSearch 5 (3 / 10) fuel 1 = some v ∧
      0 < v ∧ v ≤ 1 ∧ 5 * v - 3 / 10 < 1 :=
  ⟨by norm_num, C2_search_terminates 5 (3 / 10) (by norm_num)⟩

/-- C5: the learning rate is scaled by 0.1 exactly when a weight update
committed, `epoch > 0`, and `epoch % (update_freq * 2) == 0`; otherwise
it is unchanged, and it never increases when nonnegative. -/
theorem C5_lr_rule (update_freq epoch fuel : ℕ) (regLoss clsLoss : ℚ)
    (s : TrainState) :
    ((adjustTrainingParameters update_freq epoch regLoss clsLoss fuel s).lr =
      if lrDecay update_freq epoch fuel regLoss clsLoss s then s.lr * (1 / 10)
      else s.lr) ∧
    (0 ≤ s.lr →
      (adjustTrainingParameters update_freq epoch regLoss clsLoss fuel s).lr ≤ s.lr) := by
  have key : (adjustTrainingParameters update_freq epoch regLoss clsLoss fuel s).lr =
      if lrDecay update_freq epoch fuel regLoss clsLoss s then s.lr * (1 / 10)
      else s.lr := by
    by_cases h1 : epoch % update_freq = 0
    · by_cases h2 : s.target_fp_reached = true
      · simp [adjustTrainingParameters, lrDecay, weightCommitted, h1, h2]
      · rcases hs : hyperpSearch regLoss clsLoss fuel 1 with _ | t
        · simp [adjustTrainingParameters, lrDecay, weightCommitted, h1, h2, hs]
        · by_cases h3 : isclose t s.reg_hyperp = true
          · simp [adjustTrainingParameters, lrDecay, weightCommitted, h1, h2, h3, hs]
          · by_cases h4 : 0 < epoch
            · by_cases h5 : epoch % (update_freq * 2) = 0
              · simp [adjustTrainingParameters, lrDecay, weightCommitted,
                  h1, h2, h3, h4, h5, hs]
              · simp [adjustTrainingParameters, lrDecay, weightCommitted,
                  h1, h2, h3, h4, h5, hs]
            · simp [adjustTrainingParameters, lrDecay, weightCommitted,
                h1, h2, h3, h4, hs]
    · simp [adjustTrainingParameters, lrDecay, weightCommitted, h1]
  refine ⟨key, fun hlr => ?_⟩
  rw [key]
  split
  · nlinarith
  · exact le_rfl

/-- Witness for C5: at epoch 10 with cadence 5 a commit happens and the
learning rate does not increase from its nonnegative value. -/
theorem C5_witness :
    (0 : ℚ) ≤ (TrainState.mk 0 1 false false).lr ∧
    (adjustTrainingParameters 5 10 5 (3 / 10) 60
        (TrainState.mk 0 1 false false)).lr ≤ (TrainState.mk 0 1 false false).lr :=
  ⟨by norm_num,
   (C5_lr_rule 5 10 60 5 (3 / 10) (TrainState.mk 0 1 false false)).2 (by norm_num)⟩

/-- C6 counterexample: at epoch 0 with cadence 5 the weight update is
attempted and commits (0 mod 5 == 0), yet the learning rate is left
unchanged even though 0 mod 10 == 0, because the decay additionally
requires `epoch > 0`. -/
theorem C6_counterexample :
    (adjustTrainingParameters 5 0 5 (3 / 10) 1
        (TrainState.mk 0 1 false false)).reg_hyperp = 1 / 10 ∧
    (adjustTrainingParameters 5 0 5 (3 / 10) 1
        (TrainState.mk 0 1 false false)).lr = 1 := by
  constructor <;>
    simp [adjustTrainingParameters, search_eval_scenario, isclose_invten_zero]

/-- C6 (amended): at epoch 0 with cadence 5 the controller attempts a
weight update (`0 mod 5 == 0` passes the cadence gate) and commits a
differing candidate, but the learning-rate decay is never eligible at
epoch 0 since it requires `epoch > 0`. -/
theorem C6_epoch_zero (regLoss clsLoss : ℚ) (fuel : ℕ) (s : TrainState) (t : ℚ)
    (h2 : s.target_fp_reached = false)
    (h3 : hyperpSearch regLoss clsLoss fuel 1 = some t)
    (h4 : isclose t s.reg_hyperp = false) :
    (adjustTrainingParameters 5 0 regLoss clsLoss fuel s).reg_hyperp = t ∧
    (adjustTrainingParameters 5 0 regLoss clsLoss fuel s).lr = s.lr := by
  simp [adjustTrainingParameters, h2, h3, h4]

/-- Witness for C6: the concrete epoch-0 commit with unchanged learning
rate. -/
theorem C6_witness :
    (adjustTrainingParameters 5 0 5 (3 / 10) 60
        (TrainState.mk 0 1 false false)).reg_hyperp = 1 / 10 ∧
    (adjustTrainingParameters 5 0 5 (3 / 10) 60
        (TrainState.mk 0 1 false false)).lr = (TrainState.mk 0 1 false false).lr :=
  C6_epoch_zero 5 (3 / 10) 60 (TrainState.mk 0 1 false false) (1 / 10)
    rfl (search_eval_scenario 59) isclose_tenth_zero

/-- C7 counterexample: the weight starts at 0 and the first committed
adjustment raises it to 0.1 — the weight increases across updates, and
the committed value is recomputed from 1.0 rather than obtained by
scaling the current weight down. -/
theorem C7_counterexample :
    initialRegHyperp = 0 ∧
    (adjustTrainingParameters 5 0 5 (3 / 10) 2
        (TrainState.mk initialRegHyperp 1 false false)).reg_hyperp = 1 / 10 ∧
    initialRegHyperp < 1 / 10 := by
  refine ⟨rfl, ?_, by norm_num [initialRegHyperp]⟩
  simp [adjustTrainingParameters, initialRegHyperp, search_eval_scenario,
    isclose_invten_zero]

/-- C7 (amended): the weight starts at 0, and a committed adjustment
replaces it with the candidate found by decaying from 1.0 — a value
independent of the current weight, which may therefore exceed it. -/
theorem C7_fresh_candidate (update_freq epoch fuel : ℕ) (regLoss clsLoss : ℚ)
    (s : TrainState) (t : ℚ)
    (h1 : epoch % update_freq = 0) (h2 : s.target_fp_reached = false)
    (h3 : hyperpSearch regLoss clsLoss fuel 1 = some t)
    (h4 : isclose t s.reg_hyperp = false) :
    initialRegHyperp = 0 ∧
    (adjustTrainingParameters update_freq epoch regLoss clsLoss fuel s).reg_hyperp = t := by
  refine ⟨rfl, ?_⟩
  rw [adjust_reg_hyperp_eq update_freq epoch fuel regLoss clsLoss s t h1 h2 h3, h4]
  simp

/-- Witness for C7: a cadence-epoch commit that raises the weight from
its initial 0 to 0.1. -/
theorem C7_witness :
    initialRegHyperp = 0 ∧
    (adjustTrainingParameters 5 5 5 (3 / 10) 60
        (TrainState.mk 0 1 false false)).reg_hyperp = 1 / 10 :=
  C7_fresh_candidate 5 5 60 5 (3 / 10) (TrainState.mk 0 1 false false) (1 / 10)
    rfl rfl (search_eval_scenario 59) isclose_tenth_zero
